import Mathlib

/-!
# Verification of the Omnia fashion-attribute extraction service

Shallow embedding of the two backend modules of the repository:

* `src/backend/runpod_deepfashion_batch.py` — the batch handler
  (`decode_image`, `batch_classify`, `extract_category_batch`,
  `extract_color_batch`, `extract_pattern_batch`,
  `extract_conditional_attribute`, `handler`);
* `src/backend/modal_deepfashion.py` — the single-image extractor
  (`DeepFashionExtractor.preprocess_image`, `extract_category`,
  `extract_color`, `extract_gender`, `extract_pattern`,
  `extract_sleeve_length`, `extract_neckline`, `extract_length`,
  `analyze`).

Modelling conventions:

* the CLIP model invocation is opaque (out of scope per the spec); it is a
  parameter.  For the batch path it maps a list of images and a list of text
  prompts to `Option` of a probability matrix (one row per image, softmax
  already applied, entries as `ℚ`): `none` models the model invocation
  raising, which `batch_classify` catches.  For the modal path it maps one
  image and the prompts to a single probability row (exceptions there
  propagate, which `Except` models).
* base64/PIL decoding is likewise opaque: a parameter
  `raw : β → Except String γ` standing for
  `Image.open(io.BytesIO(base64.b64decode(...)))` plus RGB conversion,
  where `.error` models the library raising.
* Python dicts that the code builds key-by-key are association lists, so
  that key *absence* is representable; a key is absent iff `List.lookup`
  returns `none`.
* request items reach the handler untyped; an item that is not a dict makes
  `item.get` raise `AttributeError`, modelled by `PyItem.other` and the
  `Except String` monad threaded through the decode loop.  The handler's
  top-level `try/except` is the final `match`.
* wall-clock fields of the stats object (`processing_time`,
  `images_per_second`) are real time and are outside the embedding; the
  stats record keeps the three counters.
-/

namespace Omnia

/-- Result of one zero-shot classification, the dict
`{'label': ..., 'confidence': ...}` built by `batch_classify`. -/
structure ClassResult where
  label : String
  confidence : ℚ
deriving DecidableEq, Repr

/-- Per-image result of one attribute extractor: the dict
`{'category': ..., 'confidence': ...}` (resp. `'color'`, `'pattern'`,
or the conditional attribute name) — the key is restored where the dict is
read, so the value/confidence pair is what is modelled. -/
structure AttrResult where
  value : String
  confidence : ℚ
deriving DecidableEq, Repr

/-- The opaque CLIP scorer used by the batch path: images and text prompts
in, `softmax`ed probability matrix out (one row per image); `none` models
the invocation raising, which `batch_classify` catches. -/
abbrev Model (γ : Type) := List γ → List String → Option (List (List ℚ))

/-- The opaque CLIP scorer used by the modal path: one image and the text
prompts in, one probability row out. -/
abbrev Model1 (γ : Type) := γ → List String → List ℚ

/-- One element of the request's `images` list.  `dict` carries the two
fields the handler reads (`item.get "data"`, `item.get "id"`); `other`
is any non-dict value (for example a character of a string), on which
`item.get` raises `AttributeError`. -/
inductive PyItem (β : Type) where
  | dict (data : Option β) (id : Option String)
  | other (typeName : String)
deriving DecidableEq, Repr

/-- Whether a request item is a dict. -/
def PyItem.isDict : PyItem β → Bool
  | .dict _ _ => true
  | .other _ => false

/-- The `input` object of the request; `images` is `none` when the key is
missing (`input_data.get("images", [])` then yields `[]`). -/
structure EventInput (β : Type) where
  images : Option (List (PyItem β))
deriving DecidableEq, Repr

/-- The request event; `input` is `none` when the key is missing
(`event.get("input", {})` then yields `{}`). -/
structure Event (β : Type) where
  input : Option (EventInput β)
deriving DecidableEq, Repr

/-- `event.get("input", {}).get("images", [])`. -/
def getImages (event : Event β) : List (PyItem β) :=
  match event.input with
  | none => []
  | some inp => inp.images.getD []

/-- One entry of the response's `results` list: either
`{'id': ..., 'success': True, 'attributes': {...}, 'confidence': {...}}`
or `{'id': ..., 'success': False, 'error': ...}`. -/
inductive ResultEntry where
  | success (id : String) (attributes : List (String × String))
      (confidence : List (String × ℚ))
  | failure (id : String) (error : String)
deriving DecidableEq, Repr

/-- The `id` field of a result entry. -/
def ResultEntry.entryId : ResultEntry → String
  | .success i _ _ => i
  | .failure i _ => i

/-- The `success` field of a result entry. -/
def ResultEntry.isSuccess : ResultEntry → Bool
  | .success _ _ _ => true
  | .failure _ _ => false

/-- The `attributes` dict of a result entry (`[]` on failure entries,
which have no such key). -/
def ResultEntry.attrsOf : ResultEntry → List (String × String)
  | .success _ a _ => a
  | .failure _ _ => []

/-- The `confidence` dict of a result entry. -/
def ResultEntry.confOf : ResultEntry → List (String × ℚ)
  | .success _ _ c => c
  | .failure _ _ => []

/-- The `error` field of a result entry. -/
def ResultEntry.errorOf : ResultEntry → Option String
  | .success _ _ _ => none
  | .failure _ e => some e

/-- The counters of the `stats` object.  The wall-clock fields
(`processing_time`, `images_per_second`) are real time and are not
modelled. -/
structure Stats where
  total : Nat
  successful : Nat
  failed : Nat
deriving DecidableEq, Repr

/-- The handler's response: `{"results": ..., "stats": ...}` on the normal
path, `{"error": ..., "results": ...}` on the error paths. -/
inductive HandlerResponse where
  | ok (results : List ResultEntry) (stats : Stats)
  | err (error : String) (results : List ResultEntry)
deriving DecidableEq, Repr

/-- The `results` list of a response. -/
def respResults : HandlerResponse → List ResultEntry
  | .ok r _ => r
  | .err _ r => r

/-- The `stats` object of a response, when present. -/
def respStats : HandlerResponse → Option Stats
  | .ok _ s => some s
  | .err _ _ => none

/-- The `error` field of a response, when present. -/
def respError : HandlerResponse → Option String
  | .ok _ _ => none
  | .err e _ => some e

/-! ## Vocabularies (identical constants in both backend files;
`GENDER_LABELS` exists only in `modal_deepfashion.py`) -/

def CATEGORY_LABELS : List String :=
  ["dress", "top", "shirt", "blouse", "t-shirt", "sweater", "hoodie",
   "jacket", "coat", "pants", "jeans", "shorts", "skirt",
   "shoes", "sneakers", "boots", "sandals", "heels",
   "bag", "backpack", "hat", "scarf", "belt", "sunglasses"]

def SLEEVE_LENGTH_LABELS : List String := ["sleeveless", "short", "long", "three-quarter"]

def COLOR_LABELS : List String :=
  ["black", "white", "gray", "red", "blue", "green", "yellow", "orange",
   "pink", "purple", "brown", "beige", "navy", "burgundy", "cream"]

def GENDER_LABELS : List String := ["men", "women", "boys", "girls", "unisex", "kids"]

def PATTERN_LABELS : List String := ["solid", "striped", "plaid", "floral", "geometric", "dots", "animal"]

def NECKLINE_LABELS : List String := ["round", "v-neck", "collar", "turtleneck", "scoop", "square", "off-shoulder"]

def LENGTH_LABELS : List String := ["mini", "knee", "midi", "maxi", "ankle"]

def SLEEVE_CATEGORIES : List String :=
  ["dress", "top", "shirt", "blouse", "t-shirt", "sweater", "hoodie", "jacket", "coat"]

def NECKLINE_CATEGORIES : List String := ["dress", "top", "shirt", "blouse", "t-shirt", "sweater"]

def LENGTH_CATEGORIES : List String := ["dress", "skirt"]

/-! ## Python primitives used by the source -/

/-- Helper for `pySplit`: walks the characters, splitting on spaces and
dropping empty fragments, like Python's `str.split()` (the prompts built by
the source contain no other whitespace). -/
def splitWSAux : List Char → List Char → List String
  | [], [] => []
  | [], cur => [String.mk cur.reverse]
  | c :: cs, cur =>
    if c = ' ' then
      (if cur = [] then splitWSAux cs [] else String.mk cur.reverse :: splitWSAux cs [])
    else splitWSAux cs (c :: cur)

/-- Python's `str.split()` on whitespace, dropping empty fragments. -/
def pySplit (s : String) : List String := splitWSAux s.data []

/-- Python's `s.split()[-1]`: the last whitespace-separated word.  On the
concrete prompts of the source the list is never empty, so the default is
never reached. -/
def lastWord (s : String) : String := (pySplit s).getLastD ""

/-- `torch.Tensor.argmax` over a probability row: index of the maximum,
first in case of ties (the source's rows are nonempty). -/
def argmaxAux : List ℚ → Nat → Nat → ℚ → Nat
  | [], _, bi, _ => bi
  | x :: xs, i, bi, bv =>
    if bv < x then argmaxAux xs (i + 1) i x else argmaxAux xs (i + 1) bi bv

/-- First index of the maximal entry of a row (`probs[i].argmax().item()`). -/
def pyArgmax : List ℚ → Nat
  | [] => 0
  | x :: xs => argmaxAux xs 1 0 x

/-! ## `runpod_deepfashion_batch.py` — helper functions -/

/-- `decode_image` of the batch file: `base64.b64decode` + `Image.open` +
RGB conversion wrapped in `try/except` returning `None` on any exception
(the cause is only printed).  `image_data` is `item.get("data")`, so it may
be `None`, on which `b64decode` raises and the handler's `except` catches;
`raw` stands for the decoding libraries, `.error` being a raise. -/
def decode_image (raw : β → Except String γ) (image_data : Option β) : Option γ :=
  match image_data with
  | none => none
  | some d =>
    match raw d with
    | .ok image => some image
    | .error _ => none

/-- Default `ClassResult` used to model in-bounds Python list indexing
via `List.getD` (the source never indexes out of bounds). -/
def dfltC : ClassResult := ⟨"", 0⟩

/-- `batch_classify`: one model invocation over all images and prompts;
per image, the argmax over the softmax row, the label being
`text_prompts[top_idx].split()[-1]` — the *last word of the winning
prompt*.  If the model invocation raises (`none`), the `except` branch
returns the `unknown / 0.0` placeholder for every image. -/
def batch_classify (model : Model γ) (images : List γ) (text_prompts : List String) :
    List ClassResult :=
  match model images text_prompts with
  | none => images.map fun _ => ⟨"unknown", 0⟩
  | some probs =>
    (List.range images.length).map fun i =>
      let row := probs.getD i []
      let top_idx := pyArgmax row
      ⟨lastWord (text_prompts.getD top_idx ""), row.getD top_idx 0⟩

/-- Prompt template of `extract_category_batch`: `f"a photo of a {category}"`. -/
def categoryPrompt (category : String) : String := "a photo of a " ++ category

/-- Prompt template of `extract_color_batch`: `f"{color} clothing"`. -/
def colorPrompt (color : String) : String := color ++ " clothing"

/-- Prompt template of `extract_pattern_batch`: `f"{pattern} pattern clothing"`. -/
def patternPrompt (pattern : String) : String := pattern ++ " pattern clothing"

/-- `extract_category_batch`. -/
def extract_category_batch (model : Model γ) (images : List γ) : List AttrResult :=
  let text_prompts := CATEGORY_LABELS.map categoryPrompt
  let results := batch_classify model images text_prompts
  results.map fun result => ⟨result.label, result.confidence⟩

/-- `extract_color_batch`. -/
def extract_color_batch (model : Model γ) (images : List γ) : List AttrResult :=
  let text_prompts := COLOR_LABELS.map colorPrompt
  let results := batch_classify model images text_prompts
  results.map fun result => ⟨result.label, result.confidence⟩

/-- `extract_pattern_batch`. -/
def extract_pattern_batch (model : Model γ) (images : List γ) : List AttrResult :=
  let text_prompts := PATTERN_LABELS.map patternPrompt
  let results := batch_classify model images text_prompts
  results.map fun result => ⟨result.label, result.confidence⟩

/-- The subset computation of `extract_conditional_attribute`:
`[i for i, cat in enumerate(categories) if cat in valid_categories]` — the
indices `i` below `len(categories)`, in order, whose category is in
`valid_categories`. -/
def validIdx (categories valid_categories : List String) : List Nat :=
  (List.range categories.length).filter fun i =>
    valid_categories.contains (categories.getD i "")

/-- The scatter loop of `extract_conditional_attribute`:
`for idx, result_idx in enumerate(valid_indices): full_results[result_idx] = {...}`,
with `idx` the running position in `valid_indices`. -/
def scatterLoop (results : List ClassResult) :
    Nat → List Nat → List (Option AttrResult) → List (Option AttrResult)
  | _, [], full_results => full_results
  | idx, result_idx :: rest, full_results =>
    scatterLoop results (idx + 1) rest
      (full_results.set result_idx
        (some ⟨(results.getD idx dfltC).label, (results.getD idx dfltC).confidence⟩))

/-- `extract_conditional_attribute`: selects the indices whose category is
in `valid_categories`; if none, returns `[None] * len(images)` without
touching the model; otherwise classifies only the subset's images and
scatters the results back by original index.  `attribute_name` is only the
dict key of the per-image result, restored where the dict is read.
`images[i]` is modelled by `images.get? i` (always in bounds at the call
sites, where `len(categories) == len(images)`). -/
def extract_conditional_attribute (model : Model γ) (images : List γ)
    (categories : List String) (_attribute_name : String) (labels : List String)
    (valid_categories : List String) (prompt_template : String → String) :
    List (Option AttrResult) :=
  let valid_indices := validIdx categories valid_categories
  if valid_indices.isEmpty then
    List.replicate images.length none
  else
    let valid_images := valid_indices.filterMap fun i => images.get? i
    let text_prompts := labels.map prompt_template
    let results := batch_classify model valid_images text_prompts
    scatterLoop results 0 valid_indices (List.replicate images.length none)

/-! ## `runpod_deepfashion_batch.py` — the handler -/

/-- The body of the handler's decode loop
(`for i, item in enumerate(image_items): ...`), accumulating `images`,
`image_ids` and `failed_indices` by appends; a non-dict item makes
`item.get` raise. -/
def decodeLoop (raw : β → Except String γ) :
    Nat → List (PyItem β) → List γ → List String → List (Nat × String) →
    Except String (List γ × List String × List (Nat × String))
  | _, [], images, image_ids, failed_indices => .ok (images, image_ids, failed_indices)
  | i, item :: rest, images, image_ids, failed_indices =>
    match item with
    | .other t => .error ("AttributeError: " ++ t ++ " object has no attribute get")
    | .dict data oid =>
      let image_id := oid.getD ("image_" ++ toString i)
      match decode_image raw data with
      | some image =>
        decodeLoop raw (i + 1) rest (images ++ [image]) (image_ids ++ [image_id]) failed_indices
      | none =>
        decodeLoop raw (i + 1) rest images image_ids (failed_indices ++ [(i, image_id)])

/-- The whole decode stage of the handler. -/
def decodeAll (raw : β → Except String γ) (image_items : List (PyItem β)) :
    Except String (List γ × List String × List (Nat × String)) :=
  decodeLoop raw 0 image_items [] [] []

/-- Default `AttrResult` used to model in-bounds Python list indexing. -/
def dfltA : AttrResult := ⟨"", 0⟩

/-- The conditional block appending a key to the `attributes` dict when the
per-image result is present (`if sleeve_results[i]: ...`); a present dict
is always nonempty, hence truthy. -/
def attrPairs (name : String) : Option AttrResult → List (String × String)
  | some r => [(name, r.value)]
  | none => []

/-- The conditional block appending a key to the `confidence` dict. -/
def confPairs (name : String) : Option AttrResult → List (String × ℚ)
  | some r => [(name, r.confidence)]
  | none => []

/-- One iteration of the result-compilation loop of the handler: the
`attributes` and `confidence` dicts for the `i`-th successfully decoded
image, and the success entry. -/
def compileEntry (image_ids : List String)
    (category_results color_results pattern_results : List AttrResult)
    (sleeve_results neckline_results length_results : List (Option AttrResult))
    (i : Nat) : ResultEntry :=
  let attributes : List (String × String) :=
    [("category", (category_results.getD i dfltA).value),
     ("color", (color_results.getD i dfltA).value),
     ("pattern", (pattern_results.getD i dfltA).value)]
    ++ attrPairs "sleeveLength" (sleeve_results.getD i none)
    ++ attrPairs "neckline" (neckline_results.getD i none)
    ++ attrPairs "length" (length_results.getD i none)
  let confidence : List (String × ℚ) :=
    [("category", (category_results.getD i dfltA).confidence),
     ("color", (color_results.getD i dfltA).confidence),
     ("pattern", (pattern_results.getD i dfltA).confidence)]
    ++ confPairs "sleeveLength" (sleeve_results.getD i none)
    ++ confPairs "neckline" (neckline_results.getD i none)
    ++ confPairs "length" (length_results.getD i none)
  ResultEntry.success (image_ids.getD i "") attributes confidence

/-- The extraction stages and the result-compilation loop of the handler
(everything between the decode stage and the reinsertion of failures). -/
def compileResults (model : Model γ) (images : List γ) (image_ids : List String) :
    List ResultEntry :=
  let category_results := extract_category_batch model images
  let categories := category_results.map fun r => r.value
  let color_results := extract_color_batch model images
  let pattern_results := extract_pattern_batch model images
  let sleeve_results := extract_conditional_attribute model images categories
    "sleeveLength" SLEEVE_LENGTH_LABELS SLEEVE_CATEGORIES (fun label => label ++ " sleeve clothing")
  let neckline_results := extract_conditional_attribute model images categories
    "neckline" NECKLINE_LABELS NECKLINE_CATEGORIES (fun label => label ++ " neckline")
  let length_results := extract_conditional_attribute model images categories
    "length" LENGTH_LABELS LENGTH_CATEGORIES (fun label => label ++ " length dress")
  (List.range images.length).map
    (compileEntry image_ids category_results color_results pattern_results
      sleeve_results neckline_results length_results)

/-- The body of the handler's `try` block.  An exception anywhere inside it
is an `Except.error`, caught by `handler`'s final `match`. -/
def handlerBody (raw : β → Except String γ) (model : Model γ) (event : Event β) :
    Except String HandlerResponse := do
  let image_items := getImages event
  if image_items.isEmpty then
    return HandlerResponse.err "No images provided" []
  let (images, image_ids, failed_indices) ← decodeAll raw image_items
  if images.isEmpty then
    return HandlerResponse.err "All images failed to decode" []
  let success_results := compileResults model images image_ids
  let results := failed_indices.foldl
    (fun acc p => acc.insertIdx p.1 (ResultEntry.failure p.2 "Failed to decode image"))
    success_results
  return HandlerResponse.ok results
    ⟨image_items.length, images.length, failed_indices.length⟩

/-- The RunPod `handler`: the `try/except` wrapper around the body,
returning `{"error": str(e), "results": []}` on any exception. -/
def handler (raw : β → Except String γ) (model : Model γ) (event : Event β) :
    HandlerResponse :=
  match handlerBody raw model event with
  | .ok resp => resp
  | .error e => HandlerResponse.err e []

/-! ## `modal_deepfashion.py` — `DeepFashionExtractor` -/

namespace DF

/-- Result of `DeepFashionExtractor.analyze`: the top-level keys
`category`, `color`, `gender`, `pattern` plus the conditional ones in
`attrs`, and the nested `confidence` dict. -/
structure DFResult where
  attrs : List (String × String)
  confidence : List (String × ℚ)
deriving DecidableEq, Repr

/-- `preprocess_image`: the same decoding wrapped in `try/except` that
re-raises `ValueError(f"Failed to preprocess image: ...")`. -/
def preprocess_image (raw : β → Except String γ) (image_data : β) : Except String γ :=
  match raw image_data with
  | .ok image => .ok image
  | .error e => .error ("Failed to preprocess image: " ++ e)

/-- `extract_category`: zero-shot over `CATEGORY_LABELS`; the label is
`CATEGORY_LABELS[top_idx]` — a direct index into the vocabulary. -/
def extract_category (m1 : Model1 γ) (image : γ) : AttrResult :=
  let text_prompts := CATEGORY_LABELS.map categoryPrompt
  let probs := m1 image text_prompts
  let top_idx := pyArgmax probs
  ⟨CATEGORY_LABELS.getD top_idx "", probs.getD top_idx 0⟩

/-- `extract_color`. -/
def extract_color (m1 : Model1 γ) (image : γ) : AttrResult :=
  let text_prompts := COLOR_LABELS.map colorPrompt
  let probs := m1 image text_prompts
  let top_idx := pyArgmax probs
  ⟨COLOR_LABELS.getD top_idx "", probs.getD top_idx 0⟩

/-- `extract_gender` (prompts `f"{gender} fashion"`). -/
def extract_gender (m1 : Model1 γ) (image : γ) : AttrResult :=
  let text_prompts := GENDER_LABELS.map fun gender => gender ++ " fashion"
  let probs := m1 image text_prompts
  let top_idx := pyArgmax probs
  ⟨GENDER_LABELS.getD top_idx "", probs.getD top_idx 0⟩

/-- `extract_pattern`. -/
def extract_pattern (m1 : Model1 γ) (image : γ) : AttrResult :=
  let text_prompts := PATTERN_LABELS.map patternPrompt
  let probs := m1 image text_prompts
  let top_idx := pyArgmax probs
  ⟨PATTERN_LABELS.getD top_idx "", probs.getD top_idx 0⟩

/-- `extract_sleeve_length`: gated on the category (the valid list is
written inline in the source and equals `SLEEVE_CATEGORIES`). -/
def extract_sleeve_length (m1 : Model1 γ) (image : γ) (category : String) :
    Option AttrResult :=
  if ¬ SLEEVE_CATEGORIES.contains category then none
  else
    let text_prompts := SLEEVE_LENGTH_LABELS.map fun sleeve => sleeve ++ " sleeve clothing"
    let probs := m1 image text_prompts
    let top_idx := pyArgmax probs
    some ⟨SLEEVE_LENGTH_LABELS.getD top_idx "", probs.getD top_idx 0⟩

/-- `extract_neckline` (inline valid list equals `NECKLINE_CATEGORIES`). -/
def extract_neckline (m1 : Model1 γ) (image : γ) (category : String) :
    Option AttrResult :=
  if ¬ NECKLINE_CATEGORIES.contains category then none
  else
    let text_prompts := NECKLINE_LABELS.map fun neckline => neckline ++ " neckline"
    let probs := m1 image text_prompts
    let top_idx := pyArgmax probs
    some ⟨NECKLINE_LABELS.getD top_idx "", probs.getD top_idx 0⟩

/-- `extract_length` (inline valid list equals `LENGTH_CATEGORIES`). -/
def extract_length (m1 : Model1 γ) (image : γ) (category : String) :
    Option AttrResult :=
  if ¬ LENGTH_CATEGORIES.contains category then none
  else
    let text_prompts := LENGTH_LABELS.map fun len => len ++ " length dress"
    let probs := m1 image text_prompts
    let top_idx := pyArgmax probs
    some ⟨LENGTH_LABELS.getD top_idx "", probs.getD top_idx 0⟩

/-- `analyze`: preprocess, extract category first, then the unconditional
color / gender / pattern, then the three conditional extractors gated on
the category; compile the result dict.  The `except` clause re-raises, so
errors propagate. -/
def analyze (m1 : Model1 γ) (raw : β → Except String γ) (image_data : β) :
    Except String DFResult := do
  let image ← preprocess_image raw image_data
  let category_result := extract_category m1 image
  let category := category_result.value
  let color_result := extract_color m1 image
  let gender_result := extract_gender m1 image
  let pattern_result := extract_pattern m1 image
  let sleeve_result := extract_sleeve_length m1 image category
  let neckline_result := extract_neckline m1 image category
  let length_result := extract_length m1 image category
  let attrs : List (String × String) :=
    [("category", category),
     ("color", color_result.value),
     ("gender", gender_result.value),
     ("pattern", pattern_result.value)]
    ++ attrPairs "sleeveLength" sleeve_result
    ++ attrPairs "neckline" neckline_result
    ++ attrPairs "length" length_result
  let confidence : List (String × ℚ) :=
    [("category", category_result.confidence),
     ("color", color_result.confidence),
     ("gender", gender_result.confidence),
     ("pattern", pattern_result.confidence)]
    ++ confPairs "sleeveLength" sleeve_result
    ++ confPairs "neckline" neckline_result
    ++ confPairs "length" length_result
  return ⟨attrs, confidence⟩

end DF

/-! ## Generic list lemmas -/

theorem getD_range_map {f : Nat → α} {i n : Nat} (h : i < n) (d : α) :
    ((List.range n).map f).getD i d = f i := by
  rw [List.getD_eq_getElem?_getD, List.getElem?_map, List.getElem?_range h]
  rfl

theorem getD_map_of_lt {f : α → β} {l : List α} {i : Nat} (h : i < l.length) (d : β) (d' : α) :
    (l.map f).getD i d = f (l.getD i d') := by
  rw [List.getD_eq_getElem?_getD, List.getElem?_map, List.getD_eq_getElem?_getD,
    List.getElem?_eq_getElem h]
  rfl

theorem getD_append_of_lt {l t : List α} {i : Nat} (h : i < l.length) (d : α) :
    (l ++ t).getD i d = l.getD i d := by
  rw [List.getD_eq_getElem?_getD, List.getD_eq_getElem?_getD, List.getElem?_append]
  simp [h]

theorem getD_append_length {l t : List α} {a : α} (d : α) :
    (l ++ a :: t).getD l.length d = a := by
  induction l with
  | nil => rfl
  | cons b l ih => simpa using ih

theorem getD_dropLast_of_lt {l : List α} {i : Nat} (h : i + 1 < l.length) (d : α) :
    l.dropLast.getD i d = l.getD i d := by
  rw [List.getD_eq_getElem?_getD, List.getD_eq_getElem?_getD, List.getElem?_dropLast,
    if_pos (by omega)]

theorem getD_length_sub_one {l : List α} (h : l ≠ []) (d : α) :
    l.getD (l.length - 1) d = l.getLast h := by
  rw [List.getLast_eq_getElem, List.getD_eq_getElem?_getD,
    List.getElem?_eq_getElem (by
      cases l with
      | nil => exact absurd rfl h
      | cons a t => exact Nat.sub_lt (Nat.succ_pos _) Nat.one_pos)]
  rfl

theorem getD_set_ne {l : List α} {i j : Nat} (h : i ≠ j) (a d : α) :
    (l.set i a).getD j d = l.getD j d := by
  rw [List.getD_eq_getElem?_getD, List.getD_eq_getElem?_getD, List.getElem?_set_ne h]

theorem getD_set_eq_of_lt {l : List α} {i : Nat} (h : i < l.length) (a d : α) :
    (l.set i a).getD i d = a := by
  rw [List.getD_eq_getElem?_getD, List.getElem?_set_eq_of_lt a h]
  rfl

theorem getD_replicate_of_lt {n i : Nat} (h : i < n) (a d : α) :
    (List.replicate n a).getD i d = a := by
  rw [List.getD_eq_getElem?_getD, List.getElem?_replicate]
  simp [h]

theorem getD_mem_of_lt {l : List α} {i : Nat} (h : i < l.length) (d : α) :
    l.getD i d ∈ l := by
  rw [List.getD_eq_getElem?_getD, List.getElem?_eq_getElem h]
  exact List.getElem_mem _

theorem insertIdx_length_append (l t : List α) (x : α) :
    (l ++ t).insertIdx l.length x = l ++ x :: t := by
  induction l with
  | nil => rfl
  | cons a l ih => simpa [List.insertIdx_succ_cons] using ih

/-! ## Rank of an index in a filtered range, and the order-preserving merge -/

/-- Number of indices `j < i` satisfying `ok`: the position that index `i`
(if it satisfies `ok`) occupies in `(List.range n).filter ok`. -/
def rankOf (ok : Nat → Bool) (i : Nat) : Nat := ((List.range i).filter ok).length

theorem rankOf_lt {ok : Nat → Bool} {i n : Nat} (hi : i < n) (hok : ok i = true) :
    rankOf ok i < ((List.range n).filter ok).length := by
  induction n with
  | zero => exact absurd hi (Nat.not_lt_zero i)
  | succ n ih =>
    rw [List.range_succ, List.filter_append, List.length_append]
    rcases Nat.lt_or_ge i n with h | h
    · exact Nat.lt_of_lt_of_le (ih h) (Nat.le_add_right _ _)
    · have : i = n := Nat.le_antisymm (Nat.lt_succ_iff.mp hi) h
      subst this
      simp [List.filter, hok, rankOf]

theorem filter_range_getD_rank {ok : Nat → Bool} {i n : Nat} (hi : i < n)
    (hok : ok i = true) (d : Nat) :
    ((List.range n).filter ok).getD (rankOf ok i) d = i := by
  induction n with
  | zero => exact absurd hi (Nat.not_lt_zero i)
  | succ n ih =>
    rw [List.range_succ, List.filter_append]
    rcases Nat.lt_or_ge i n with h | h
    · rw [getD_append_of_lt (rankOf_lt h hok)]
      exact ih h
    · have : i = n := Nat.le_antisymm (Nat.lt_succ_iff.mp hi) h
      subst this
      show (_ ++ List.filter ok [i]).getD (rankOf ok i) d = i
      simp only [List.filter, hok]
      exact getD_append_length d

/-- The recombined result list: position `i` carries the `rankOf`-th element
of `L` when `ok i`, and `fail i` otherwise. -/
def mergeList (n : Nat) (ok : Nat → Bool) (L : List α) (d : α) (fail : Nat → α) : List α :=
  (List.range n).map fun i => if ok i then L.getD (rankOf ok i) d else fail i

theorem length_mergeList (n : Nat) (ok : Nat → Bool) (L : List α) (d : α) (fail : Nat → α) :
    (mergeList n ok L d fail).length = n := by
  simp [mergeList]

theorem mergeList_getD {n i : Nat} {ok : Nat → Bool} (hi : i < n)
    (L : List α) (d : α) (fail : Nat → α) :
    (mergeList n ok L d fail).getD i d = if ok i then L.getD (rankOf ok i) d else fail i :=
  getD_range_map hi d

/-- Reinserting the failed entries at their original indices, in ascending
index order, into the list of successful entries rebuilds the full
index-ordered list. -/
theorem foldl_insertIdx_merge (ok : Nat → Bool) (fail : Nat → α) (d : α) :
    ∀ (n : Nat) (L t : List α), L.length = ((List.range n).filter ok).length →
    ((List.range n).filter fun i => ! ok i).foldl
        (fun acc i => acc.insertIdx i (fail i)) (L ++ t)
      = mergeList n ok L d fail ++ t := by
  intro n
  induction n with
  | zero =>
    intro L t hL
    simp only [List.range_zero, List.filter_nil, List.length_nil] at hL ⊢
    rw [List.length_eq_zero.mp hL]
    simp [mergeList]
  | succ n ih =>
    intro L t hL
    by_cases hok : ok n = true
    · have hfb : ((List.range (n + 1)).filter fun i => ! ok i)
          = (List.range n).filter fun i => ! ok i := by
        rw [List.range_succ, List.filter_append]
        simp [List.filter_cons, hok]
      have hfa : ((List.range (n + 1)).filter ok).length
          = ((List.range n).filter ok).length + 1 := by
        rw [List.range_succ, List.filter_append]
        simp [List.filter_cons, hok]
      rw [hfa] at hL
      have hL' : L ≠ [] := by
        intro h
        rw [h] at hL
        simp at hL
      have hlen' : L.dropLast.length = ((List.range n).filter ok).length := by
        rw [List.length_dropLast, hL]
        omega
      have hsplit : L ++ t = L.dropLast ++ (L.getLast hL' :: t) := by
        conv_lhs => rw [← List.dropLast_append_getLast hL']
        rw [List.append_assoc]
        rfl
      rw [hfb, hsplit, ih L.dropLast (L.getLast hL' :: t) hlen']
      have hm : mergeList (n + 1) ok L d fail
          = mergeList n ok L.dropLast d fail ++ [L.getLast hL'] := by
        unfold mergeList
        rw [List.range_succ, List.map_append]
        congr 1
        · apply List.map_congr_left
          intro i hi
          rw [List.mem_range] at hi
          by_cases h2 : ok i = true
          · have hr := rankOf_lt hi h2
            rw [if_pos h2, if_pos h2, getD_dropLast_of_lt (by omega)]
          · rw [if_neg h2, if_neg h2]
        · rw [List.map_cons, List.map_nil, if_pos hok]
          congr 1
          have hrn : rankOf ok n = L.length - 1 := by
            unfold rankOf
            omega
          rw [hrn]
          exact getD_length_sub_one hL' d
      rw [hm, List.append_assoc]
      rfl
    · have hok' : ok n = false := Bool.not_eq_true (ok n) ▸ hok
      have hfb : ((List.range (n + 1)).filter fun i => ! ok i)
          = ((List.range n).filter fun i => ! ok i) ++ [n] := by
        rw [List.range_succ, List.filter_append]
        simp [List.filter_cons, hok']
      have hfa : ((List.range (n + 1)).filter ok).length
          = ((List.range n).filter ok).length := by
        rw [List.range_succ, List.filter_append]
        simp [List.filter_cons, hok']
      rw [hfa] at hL
      rw [hfb, List.foldl_append, ih L t hL]
      simp only [List.foldl_cons, List.foldl_nil]
      have hins := insertIdx_length_append (mergeList n ok L d fail) t (fail n)
      rw [length_mergeList] at hins
      rw [hins]
      have hm : mergeList (n + 1) ok L d fail = mergeList n ok L d fail ++ [fail n] := by
        unfold mergeList
        rw [List.range_succ, List.map_append, List.map_cons, List.map_nil,
          if_neg (by simp [hok'])]
      rw [hm, List.append_assoc]
      rfl

/-! ## Scatter-loop lemmas -/

theorem length_scatterLoop (rs : List ClassResult) :
    ∀ (vs : List Nat) (idx : Nat) (acc : List (Option AttrResult)),
    (scatterLoop rs idx vs acc).length = acc.length := by
  intro vs
  induction vs with
  | nil => intro idx acc; rfl
  | cons v rest ih =>
    intro idx acc
    rw [scatterLoop, ih]
    exact List.length_set acc v _

theorem scatterLoop_getD_not_mem (rs : List ClassResult) {j : Nat} :
    ∀ (vs : List Nat) (idx : Nat) (acc : List (Option AttrResult)), j ∉ vs →
    (scatterLoop rs idx vs acc).getD j none = acc.getD j none := by
  intro vs
  induction vs with
  | nil => intro idx acc _; rfl
  | cons v rest ih =>
    intro idx acc hj
    rw [scatterLoop, ih _ _ (fun h => hj (List.mem_cons_of_mem v h)),
      getD_set_ne (fun h => hj (by rw [← h]; exact List.mem_cons_self v rest))]

theorem scatterLoop_getD_rank (rs : List ClassResult) :
    ∀ (vs : List Nat) (idx : Nat) (acc : List (Option AttrResult)) (k : Nat),
    vs.Nodup → k < vs.length → vs.getD k 0 < acc.length →
    (scatterLoop rs idx vs acc).getD (vs.getD k 0) none
      = some ⟨(rs.getD (idx + k) dfltC).label, (rs.getD (idx + k) dfltC).confidence⟩ := by
  intro vs
  induction vs with
  | nil =>
    intro idx acc k _ hk
    exact absurd hk (Nat.not_lt_zero k)
  | cons v rest ih =>
    intro idx acc k hnd hk hlt
    rcases List.nodup_cons.mp hnd with ⟨hv, hnd'⟩
    cases k with
    | zero =>
      have hj : (v :: rest).getD 0 0 = v := rfl
      rw [hj] at hlt ⊢
      rw [scatterLoop, scatterLoop_getD_not_mem rs rest _ _ hv,
        getD_set_eq_of_lt hlt, Nat.add_zero]
    | succ k =>
      have hj : (v :: rest).getD (k + 1) 0 = rest.getD k 0 := rfl
      rw [hj] at hlt ⊢
      have harith : idx + 1 + k = idx + (k + 1) := by omega
      rw [scatterLoop, ih (idx + 1) _ k hnd' (Nat.lt_of_succ_lt_succ hk)
        (by rw [List.length_set]; exact hlt), harith]

/-! ## Lemmas about the valid-index subset -/

theorem validIdx_nodup (cats valid : List String) : (validIdx cats valid).Nodup :=
  (List.nodup_range cats.length).filter _

theorem validIdx_mem (cats valid : List String) (j : Nat) :
    j ∈ validIdx cats valid ↔ j < cats.length ∧ valid.contains (cats.getD j "") = true := by
  rw [validIdx, List.mem_filter, List.mem_range]

theorem validIdx_eq_nil_iff (cats valid : List String) :
    validIdx cats valid = [] ↔
      ∀ j < cats.length, valid.contains (cats.getD j "") = false := by
  constructor
  · intro h j hj
    by_cases hc : valid.contains (cats.getD j "") = true
    · exact absurd ((validIdx_mem cats valid j).mpr ⟨hj, hc⟩)
        (by rw [h]; exact List.not_mem_nil j)
    · exact Bool.not_eq_true _ ▸ hc
  · intro h
    rw [validIdx, List.filter_eq_nil_iff]
    intro j hj
    rw [h j (List.mem_range.mp hj)]
    exact Bool.false_ne_true

theorem validIdx_getD_mem {cats valid : List String} {k : Nat}
    (hk : k < (validIdx cats valid).length) :
    (validIdx cats valid).getD k 0 ∈ validIdx cats valid :=
  getD_mem_of_lt hk 0

/-! ## Length facts for the classifier and the extractors -/

theorem length_batch_classify (model : Model γ) (images : List γ) (prompts : List String) :
    (batch_classify model images prompts).length = images.length := by
  unfold batch_classify
  cases model images prompts <;> simp

theorem length_extract_category_batch (model : Model γ) (images : List γ) :
    (extract_category_batch model images).length = images.length := by
  unfold extract_category_batch
  rw [List.length_map, length_batch_classify]

theorem length_extract_color_batch (model : Model γ) (images : List γ) :
    (extract_color_batch model images).length = images.length := by
  unfold extract_color_batch
  rw [List.length_map, length_batch_classify]

theorem length_extract_pattern_batch (model : Model γ) (images : List γ) :
    (extract_pattern_batch model images).length = images.length := by
  unfold extract_pattern_batch
  rw [List.length_map, length_batch_classify]

theorem length_extract_conditional_attribute (model : Model γ) (images : List γ)
    (cats : List String) (nm : String) (labels valid : List String)
    (tmpl : String → String) :
    (extract_conditional_attribute model images cats nm labels valid tmpl).length
      = images.length := by
  unfold extract_conditional_attribute
  by_cases h : (validIdx cats valid).isEmpty
  · rw [if_pos h, List.length_replicate]
  · rw [if_neg h, length_scatterLoop, List.length_replicate]

/-! ## Characterization of `extract_conditional_attribute` -/

/-- The subset of images actually classified by a conditional extractor. -/
def subsetImages (images : List γ) (cats valid : List String) : List γ :=
  (validIdx cats valid).filterMap fun i => images.get? i

theorem eca_of_no_valid (model : Model γ) (images : List γ) (cats : List String)
    (nm : String) (labels valid : List String) (tmpl : String → String)
    (h : ∀ j < cats.length, valid.contains (cats.getD j "") = false) :
    extract_conditional_attribute model images cats nm labels valid tmpl
      = List.replicate images.length none := by
  unfold extract_conditional_attribute
  rw [if_pos (by rw [List.isEmpty_iff]; exact (validIdx_eq_nil_iff _ _).mpr h)]

theorem eca_getD_of_invalid (model : Model γ) (images : List γ) (cats : List String)
    (nm : String) (labels valid : List String) (tmpl : String → String)
    {j : Nat} (hj : j < images.length)
    (hc : valid.contains (cats.getD j "") = false) :
    (extract_conditional_attribute model images cats nm labels valid tmpl).getD j none
      = none := by
  unfold extract_conditional_attribute
  by_cases he : (validIdx cats valid).isEmpty
  · rw [if_pos he, getD_replicate_of_lt hj]
  · rw [if_neg he, scatterLoop_getD_not_mem _ _ _ _ (fun hmem => by
      rcases (validIdx_mem _ _ _).mp hmem with ⟨_, hc'⟩
      rw [hc] at hc'
      exact Bool.false_ne_true hc'), getD_replicate_of_lt hj]

theorem eca_getD_rank (model : Model γ) (images : List γ) (cats : List String)
    (nm : String) (labels valid : List String) (tmpl : String → String)
    (hlen : cats.length = images.length) {k : Nat}
    (hk : k < (validIdx cats valid).length) :
    (extract_conditional_attribute model images cats nm labels valid tmpl).getD
        ((validIdx cats valid).getD k 0) none
      = some ⟨((batch_classify model (subsetImages images cats valid)
                  (labels.map tmpl)).getD k dfltC).label,
              ((batch_classify model (subsetImages images cats valid)
                  (labels.map tmpl)).getD k dfltC).confidence⟩ := by
  unfold extract_conditional_attribute
  have hne : ¬ (validIdx cats valid).isEmpty = true := by
    intro h
    rw [List.isEmpty_iff] at h
    rw [h] at hk
    exact absurd hk (by simp)
  rw [if_neg hne]
  have hjlt : (validIdx cats valid).getD k 0 < (List.replicate images.length
      (none : Option AttrResult)).length := by
    rw [List.length_replicate]
    rcases (validIdx_mem cats valid _).mp (validIdx_getD_mem hk) with ⟨hlt, _⟩
    omega
  have := scatterLoop_getD_rank
    (batch_classify model (subsetImages images cats valid) (labels.map tmpl))
    (validIdx cats valid) 0 (List.replicate images.length none) k
    (validIdx_nodup cats valid) hk hjlt
  rw [Nat.zero_add] at this
  exact this

theorem eca_getD_isSome (model : Model γ) (images : List γ) (cats : List String)
    (nm : String) (labels valid : List String) (tmpl : String → String)
    (hlen : cats.length = images.length) {j : Nat} (hj : j < images.length) :
    ((extract_conditional_attribute model images cats nm labels valid tmpl).getD
        j none).isSome
      = valid.contains (cats.getD j "") := by
  by_cases hc : valid.contains (cats.getD j "") = true
  · rw [hc]
    have hmem : j ∈ validIdx cats valid :=
      (validIdx_mem cats valid j).mpr ⟨by omega, hc⟩
    have hidx : (validIdx cats valid).indexOf j < (validIdx cats valid).length :=
      List.indexOf_lt_length.mpr hmem
    have hgd : (validIdx cats valid).getD ((validIdx cats valid).indexOf j) 0 = j := by
      rw [List.getD_eq_getElem?_getD, List.getElem?_eq_getElem hidx]
      exact List.indexOf_get hidx
    rw [← hgd, eca_getD_rank model images cats nm labels valid tmpl hlen hidx]
    rfl
  · have hc' : valid.contains (cats.getD j "") = false := Bool.not_eq_true _ ▸ hc
    rw [hc', eca_getD_of_invalid model images cats nm labels valid tmpl hj hc']
    rfl

/-! ## Characterization of the decode loop -/

/-- Placeholder item used to express Python list indexing via `getD`
(in-bounds at every use). -/
def dummyItem : PyItem β := .other ""

/-- The `data` field of a dict item. -/
def itemData : PyItem β → Option β
  | .dict d _ => d
  | .other _ => none

/-- The id of the item at original index `i`:
`item.get("id", f"image_{i}")`. -/
def itemIdAt (i : Nat) : PyItem β → String
  | .dict _ oid => oid.getD ("image_" ++ toString i)
  | .other _ => "image_" ++ toString i

/-- Whether an item's payload decodes. -/
def decOkItem (raw : β → Except String γ) (it : PyItem β) : Bool :=
  (decode_image raw (itemData it)).isSome

/-- Whether the item at index `j` of the batch decodes. -/
def okAt (raw : β → Except String γ) (items : List (PyItem β)) (j : Nat) : Bool :=
  decOkItem raw (items.getD j dummyItem)

/-- The id of the item at index `j` of the batch (caller-supplied, or the
positional default `image_{j}`). -/
def idAt (items : List (PyItem β)) (j : Nat) : String :=
  itemIdAt j (items.getD j dummyItem)

/-- Original indices of the items that decode, ascending. -/
def goodIdx (raw : β → Except String γ) (items : List (PyItem β)) : List Nat :=
  (List.range items.length).filter (okAt raw items)

/-- Original indices of the items that fail to decode, ascending. -/
def badIdx (raw : β → Except String γ) (items : List (PyItem β)) : List Nat :=
  (List.range items.length).filter fun j => ! okAt raw items j

/-- Generic accumulator shape of the decode loop: emit a few elements per
item, tracking the running original index. -/
def emitAux (f : Nat → PyItem β → List ξ) : Nat → List (PyItem β) → List ξ
  | _, [] => []
  | i, it :: rest => f i it ++ emitAux f (i + 1) rest

/-- The images accumulated by the decode loop. -/
def sImgs (raw : β → Except String γ) (items : List (PyItem β)) : List γ :=
  emitAux (fun _ it => (decode_image raw (itemData it)).toList) 0 items

/-- The image ids accumulated by the decode loop. -/
def sIds (raw : β → Except String γ) (items : List (PyItem β)) : List String :=
  emitAux (fun i it => if decOkItem raw it then [itemIdAt i it] else []) 0 items

/-- The failed `(index, id)` pairs accumulated by the decode loop. -/
def fPairs (raw : β → Except String γ) (items : List (PyItem β)) : List (Nat × String) :=
  emitAux (fun i it => if decOkItem raw it then [] else [(i, itemIdAt i it)]) 0 items

theorem emitAux_eq_filter (P : PyItem β → Bool) (g : Nat → PyItem β → ξ) :
    ∀ (items : List (PyItem β)) (i₀ : Nat),
    emitAux (fun i it => if P it then [g i it] else []) i₀ items
      = ((List.range items.length).filter fun j => P (items.getD j dummyItem)).map
          fun j => g (i₀ + j) (items.getD j dummyItem) := by
  intro items
  induction items with
  | nil => intro i₀; rfl
  | cons it rest ih =>
    intro i₀
    show (if P it then [g i₀ it] else []) ++ _ = _
    rw [List.length_cons, List.range_succ_eq_map, List.filter_cons, ih (i₀ + 1)]
    have hpred : ((List.range rest.length).map Nat.succ).filter
          (fun j => P ((it :: rest).getD j dummyItem))
        = ((List.range rest.length).filter fun j => P (rest.getD j dummyItem)).map
            Nat.succ := by
      rw [List.filter_map]
      congr 1
    by_cases hP : P ((it :: rest).getD 0 dummyItem) = true
    · rw [if_pos hP, List.map_cons, hpred, List.map_map]
      have hP' : P it = true := hP
      rw [if_pos hP']
      show [g i₀ it] ++ _ = g (i₀ + 0) ((it :: rest).getD 0 dummyItem) :: _
      rw [Nat.add_zero]
      show g i₀ it :: _ = g i₀ it :: _
      congr 1
      apply List.map_congr_left
      intro j _
      show g (i₀ + 1 + j) (rest.getD j dummyItem) = g (i₀ + (j + 1)) ((it :: rest).getD (j + 1) dummyItem)
      rw [show i₀ + 1 + j = i₀ + (j + 1) by omega]
      rfl
    · rw [if_neg hP, hpred, List.map_map]
      have hP' : ¬ P it = true := hP
      rw [if_neg hP']
      show _ = List.map _ _
      rw [List.nil_append]
      apply List.map_congr_left
      intro j _
      show g (i₀ + 1 + j) (rest.getD j dummyItem) = g (i₀ + (j + 1)) ((it :: rest).getD (j + 1) dummyItem)
      rw [show i₀ + 1 + j = i₀ + (j + 1) by omega]
      rfl

theorem sIds_eq (raw : β → Except String γ) (items : List (PyItem β)) :
    sIds raw items = (goodIdx raw items).map fun j => idAt items j := by
  unfold sIds goodIdx
  rw [emitAux_eq_filter]
  congr 1
  funext j
  show itemIdAt (0 + j) _ = idAt items j
  rw [Nat.zero_add]
  rfl

theorem fPairs_eq (raw : β → Except String γ) (items : List (PyItem β)) :
    fPairs raw items = (badIdx raw items).map fun j => (j, idAt items j) := by
  unfold fPairs badIdx
  have h := emitAux_eq_filter (fun it => ! decOkItem raw it)
    (fun i it => (i, itemIdAt i it)) items 0
  have hconv : (emitAux (fun i it => if decOkItem raw it then []
        else [(i, itemIdAt i it)]) 0 items)
      = emitAux (fun i it => if (! decOkItem raw it) = true then [(i, itemIdAt i it)]
        else []) 0 items := by
    congr 1
    funext i it
    cases hdec : decOkItem raw it <;> simp [hdec]
  rw [hconv, h]
  congr 1
  funext j
  show (0 + j, itemIdAt (0 + j) _) = (j, idAt items j)
  rw [Nat.zero_add]
  rfl

theorem length_sImgs (raw : β → Except String γ) (items : List (PyItem β)) :
    (sImgs raw items).length = (goodIdx raw items).length := by
  have h : ∀ (its : List (PyItem β)) (i₀ : Nat),
      (emitAux (fun _ it => (decode_image raw (itemData it)).toList) i₀ its).length
        = ((List.range its.length).filter fun j => decOkItem raw (its.getD j dummyItem)).length := by
    intro its
    induction its with
    | nil => intro i₀; rfl
    | cons it rest ih =>
      intro i₀
      show ((decode_image raw (itemData it)).toList ++ _).length = _
      rw [List.length_append, ih (i₀ + 1), List.length_cons, List.range_succ_eq_map,
        List.filter_cons]
      have hpred : ((List.range rest.length).map Nat.succ).filter
            (fun j => decOkItem raw ((it :: rest).getD j dummyItem))
          = ((List.range rest.length).filter fun j => decOkItem raw (rest.getD j dummyItem)).map
              Nat.succ := by
        rw [List.filter_map]
        congr 1
      by_cases hdec : decOkItem raw it = true
      · have h0 : decOkItem raw ((it :: rest).getD 0 dummyItem) = true := hdec
        rw [if_pos h0, hpred]
        have htl : (decode_image raw (itemData it)).toList.length = 1 := by
          unfold decOkItem at hdec
          cases hde : decode_image raw (itemData it)
          · rw [hde] at hdec; exact absurd hdec (by simp)
          · rfl
        rw [htl]
        simp [Nat.add_comm]
      · have h0 : ¬ decOkItem raw ((it :: rest).getD 0 dummyItem) = true := hdec
        rw [if_neg h0, hpred]
        have htl : (decode_image raw (itemData it)).toList.length = 0 := by
          unfold decOkItem at hdec
          cases hde : decode_image raw (itemData it)
          · rfl
          · rw [hde] at hdec; exact absurd rfl hdec
        rw [htl]
        simp
  have := h items 0
  unfold sImgs goodIdx
  rw [this]
  rfl

theorem decodeLoop_eq (raw : β → Except String γ) :
    ∀ (items : List (PyItem β)) (i : Nat) (accI : List γ) (accS : List String)
      (accF : List (Nat × String)), (∀ it ∈ items, it.isDict = true) →
    decodeLoop raw i items accI accS accF
      = .ok (accI ++ emitAux (fun _ it => (decode_image raw (itemData it)).toList) i items,
             accS ++ emitAux (fun i it => if decOkItem raw it then [itemIdAt i it] else []) i items,
             accF ++ emitAux (fun i it => if decOkItem raw it then [] else [(i, itemIdAt i it)]) i items) := by
  intro items
  induction items with
  | nil =>
    intro i a b c _
    simp [decodeLoop, emitAux]
  | cons it rest ih =>
    intro i a b c hd
    have hdict := hd it (List.mem_cons_self it rest)
    cases it with
    | other t => exact absurd hdict (by simp [PyItem.isDict])
    | dict data oid =>
      cases hdec : decode_image raw data with
      | some img =>
        have hOk : decOkItem raw (PyItem.dict data oid) = true := by
          unfold decOkItem itemData
          rw [hdec]
          rfl
        simp only [decodeLoop, hdec]
        rw [ih (i + 1) (a ++ [img]) (b ++ [oid.getD ("image_" ++ toString i)]) c
          fun x hx => hd x (List.mem_cons_of_mem _ hx)]
        simp [emitAux, itemData, hdec, hOk, itemIdAt, List.append_assoc]
      | none =>
        have hOk : decOkItem raw (PyItem.dict data oid) = false := by
          unfold decOkItem itemData
          rw [hdec]
          rfl
        simp only [decodeLoop, hdec]
        rw [ih (i + 1) a b (c ++ [(i, oid.getD ("image_" ++ toString i))])
          fun x hx => hd x (List.mem_cons_of_mem _ hx)]
        simp [emitAux, itemData, hdec, hOk, itemIdAt, List.append_assoc]

theorem decodeAll_eq (raw : β → Except String γ) (items : List (PyItem β))
    (hd : ∀ it ∈ items, it.isDict = true) :
    decodeAll raw items = .ok (sImgs raw items, sIds raw items, fPairs raw items) := by
  unfold decodeAll sImgs sIds fPairs
  rw [decodeLoop_eq raw items 0 [] [] [] hd]
  simp

/-! ## Lemmas about the compile stage -/

/-- Default `ResultEntry` used to express Python list indexing via `getD`. -/
def dummyEntry : ResultEntry := .failure "" ""

/-- The categories extracted by the handler
(`categories = [r['category'] for r in category_results]`). -/
def categoriesOf (model : Model γ) (images : List γ) : List String :=
  (extract_category_batch model images).map fun r => r.value

/-- The handler's `sleeve_results`. -/
def sleeveResOf (model : Model γ) (images : List γ) : List (Option AttrResult) :=
  extract_conditional_attribute model images (categoriesOf model images)
    "sleeveLength" SLEEVE_LENGTH_LABELS SLEEVE_CATEGORIES (fun label => label ++ " sleeve clothing")

/-- The handler's `neckline_results`. -/
def necklineResOf (model : Model γ) (images : List γ) : List (Option AttrResult) :=
  extract_conditional_attribute model images (categoriesOf model images)
    "neckline" NECKLINE_LABELS NECKLINE_CATEGORIES (fun label => label ++ " neckline")

/-- The handler's `length_results`. -/
def lengthResOf (model : Model γ) (images : List γ) : List (Option AttrResult) :=
  extract_conditional_attribute model images (categoriesOf model images)
    "length" LENGTH_LABELS LENGTH_CATEGORIES (fun label => label ++ " length dress")

theorem length_categoriesOf (model : Model γ) (images : List γ) :
    (categoriesOf model images).length = images.length := by
  unfold categoriesOf
  rw [List.length_map, length_extract_category_batch]

theorem length_compileResults (model : Model γ) (images : List γ) (ids : List String) :
    (compileResults model images ids).length = images.length := by
  simp [compileResults]

theorem compileResults_getD (model : Model γ) (images : List γ) (ids : List String)
    {k : Nat} (hk : k < images.length) :
    (compileResults model images ids).getD k dummyEntry
      = compileEntry ids (extract_category_batch model images)
          (extract_color_batch model images) (extract_pattern_batch model images)
          (sleeveResOf model images) (necklineResOf model images)
          (lengthResOf model images) k := by
  simp only [compileResults]
  rw [getD_range_map hk]
  rfl

section CompileEntry

variable (ids : List String) (catR colR patR : List AttrResult)
variable (slvR nckR lenR : List (Option AttrResult)) (k : Nat)

theorem compileEntry_entryId :
    (compileEntry ids catR colR patR slvR nckR lenR k).entryId = ids.getD k "" := by
  unfold compileEntry
  cases slvR.getD k none <;> cases nckR.getD k none <;>
    cases lenR.getD k none <;> simp [ResultEntry.entryId]

theorem compileEntry_isSuccess :
    (compileEntry ids catR colR patR slvR nckR lenR k).isSuccess = true := by
  unfold compileEntry
  cases slvR.getD k none <;> cases nckR.getD k none <;>
    cases lenR.getD k none <;> simp [ResultEntry.isSuccess]

theorem compileEntry_lookup_category :
    ((compileEntry ids catR colR patR slvR nckR lenR k).attrsOf).lookup "category"
      = some (catR.getD k dfltA).value := by
  unfold compileEntry
  cases slvR.getD k none <;> cases nckR.getD k none <;>
    cases lenR.getD k none <;>
    simp [ResultEntry.attrsOf, attrPairs, List.lookup]

theorem compileEntry_lookup_gender :
    ((compileEntry ids catR colR patR slvR nckR lenR k).attrsOf).lookup "gender"
      = none := by
  unfold compileEntry
  cases slvR.getD k none <;> cases nckR.getD k none <;>
    cases lenR.getD k none <;>
    simp [ResultEntry.attrsOf, attrPairs, List.lookup]

theorem compileEntry_attrs_sleeve :
    (((compileEntry ids catR colR patR slvR nckR lenR k).attrsOf).lookup
        "sleeveLength").isSome = (slvR.getD k none).isSome := by
  unfold compileEntry
  cases slvR.getD k none <;> cases nckR.getD k none <;>
    cases lenR.getD k none <;>
    simp [ResultEntry.attrsOf, attrPairs, List.lookup]

theorem compileEntry_conf_sleeve :
    (((compileEntry ids catR colR patR slvR nckR lenR k).confOf).lookup
        "sleeveLength").isSome = (slvR.getD k none).isSome := by
  unfold compileEntry
  cases slvR.getD k none <;> cases nckR.getD k none <;>
    cases lenR.getD k none <;>
    simp [ResultEntry.confOf, confPairs, List.lookup]

theorem compileEntry_attrs_neckline :
    (((compileEntry ids catR colR patR slvR nckR lenR k).attrsOf).lookup
        "neckline").isSome = (nckR.getD k none).isSome := by
  unfold compileEntry
  cases slvR.getD k none <;> cases nckR.getD k none <;>
    cases lenR.getD k none <;>
    simp [ResultEntry.attrsOf, attrPairs, List.lookup]

theorem compileEntry_conf_neckline :
    (((compileEntry ids catR colR patR slvR nckR lenR k).confOf).lookup
        "neckline").isSome = (nckR.getD k none).isSome := by
  unfold compileEntry
  cases slvR.getD k none <;> cases nckR.getD k none <;>
    cases lenR.getD k none <;>
    simp [ResultEntry.confOf, confPairs, List.lookup]

theorem compileEntry_attrs_length :
    (((compileEntry ids catR colR patR slvR nckR lenR k).attrsOf).lookup
        "length").isSome = (lenR.getD k none).isSome := by
  unfold compileEntry
  cases slvR.getD k none <;> cases nckR.getD k none <;>
    cases lenR.getD k none <;>
    simp [ResultEntry.attrsOf, attrPairs, List.lookup]

theorem compileEntry_conf_length :
    (((compileEntry ids catR colR patR slvR nckR lenR k).confOf).lookup
        "length").isSome = (lenR.getD k none).isSome := by
  unfold compileEntry
  cases slvR.getD k none <;> cases nckR.getD k none <;>
    cases lenR.getD k none <;>
    simp [ResultEntry.confOf, confPairs, List.lookup]

end CompileEntry

/-! ## Characterization of the handler -/

/-- The failure entry the handler inserts for an undecodable item. -/
def failEntryAt (items : List (PyItem β)) (i : Nat) : ResultEntry :=
  .failure (idAt items i) "Failed to decode image"

theorem handler_empty (raw : β → Except String γ) (model : Model γ) (event : Event β)
    (h : getImages event = []) :
    handler raw model event = .err "No images provided" [] := by
  unfold handler handlerBody
  rw [h]
  rfl

theorem handler_char (raw : β → Except String γ) (model : Model γ) (event : Event β)
    (hd : ∀ it ∈ getImages event, it.isDict = true)
    (hne : getImages event ≠ [])
    (hsome : ∃ i, i < (getImages event).length ∧ okAt raw (getImages event) i = true) :
    handler raw model event
      = .ok (mergeList (getImages event).length (okAt raw (getImages event))
              (compileResults model (sImgs raw (getImages event))
                ((goodIdx raw (getImages event)).map fun j => idAt (getImages event) j))
              dummyEntry (failEntryAt (getImages event)))
          ⟨(getImages event).length, (goodIdx raw (getImages event)).length,
           (badIdx raw (getImages event)).length⟩ := by
  have h1 : (getImages event).isEmpty = false := by
    cases h : (getImages event).isEmpty
    · rfl
    · exact absurd (List.isEmpty_iff.mp h) hne
  rcases hsome with ⟨i, hi, hok⟩
  have hmem : i ∈ goodIdx raw (getImages event) := by
    unfold goodIdx
    rw [List.mem_filter, List.mem_range]
    exact ⟨hi, hok⟩
  have hgood : goodIdx raw (getImages event) ≠ [] := List.ne_nil_of_mem hmem
  have h2 : (sImgs raw (getImages event)).isEmpty = false := by
    cases h : (sImgs raw (getImages event)).isEmpty
    · rfl
    · have := List.isEmpty_iff.mp h
      have hlen := length_sImgs raw (getImages event)
      rw [this] at hlen
      exact absurd (List.length_eq_zero.mp hlen.symm) hgood
  unfold handler handlerBody
  simp only [decodeAll_eq raw _ hd, bind, Except.bind, pure, h1, h2, sIds_eq, fPairs_eq,
    Bool.false_eq_true, if_false]
  rw [List.foldl_map]
  have hL : (compileResults model (sImgs raw (getImages event))
      ((goodIdx raw (getImages event)).map fun j => idAt (getImages event) j)).length
      = ((List.range (getImages event).length).filter
          (okAt raw (getImages event))).length := by
    rw [length_compileResults, length_sImgs]
    rfl
  have hmerge := foldl_insertIdx_merge (okAt raw (getImages event))
    (failEntryAt (getImages event)) dummyEntry (getImages event).length
    (compileResults model (sImgs raw (getImages event))
      ((goodIdx raw (getImages event)).map fun j => idAt (getImages event) j))
    [] hL
  rw [List.append_nil, List.append_nil] at hmerge
  have hbad : ((List.range (getImages event).length).filter
      fun i => ! okAt raw (getImages event) i) = badIdx raw (getImages event) := rfl
  rw [hbad] at hmerge
  have hfold : (badIdx raw (getImages event)).foldl
      (fun acc j => acc.insertIdx j (ResultEntry.failure (idAt (getImages event) j)
        "Failed to decode image"))
      (compileResults model (sImgs raw (getImages event))
        ((goodIdx raw (getImages event)).map fun j => idAt (getImages event) j))
      = mergeList (getImages event).length (okAt raw (getImages event))
          (compileResults model (sImgs raw (getImages event))
            ((goodIdx raw (getImages event)).map fun j => idAt (getImages event) j))
          dummyEntry (failEntryAt (getImages event)) := hmerge
  rw [hfold, length_sImgs, List.length_map]
  rfl

theorem handler_all_fail (raw : β → Except String γ) (model : Model γ) (event : Event β)
    (hd : ∀ it ∈ getImages event, it.isDict = true)
    (hne : getImages event ≠ [])
    (hall : ∀ i < (getImages event).length, okAt raw (getImages event) i = false) :
    handler raw model event = .err "All images failed to decode" [] := by
  have h1 : (getImages event).isEmpty = false := by
    cases h : (getImages event).isEmpty
    · rfl
    · exact absurd (List.isEmpty_iff.mp h) hne
  have hgood : goodIdx raw (getImages event) = [] := by
    unfold goodIdx
    rw [List.filter_eq_nil_iff]
    intro j hj
    rw [hall j (List.mem_range.mp hj)]
    exact Bool.false_ne_true
  have h2 : (sImgs raw (getImages event)).isEmpty = true := by
    rw [List.isEmpty_iff, ← List.length_eq_zero, length_sImgs, hgood]
    rfl
  unfold handler handlerBody
  simp only [decodeAll_eq raw _ hd, bind, Except.bind, pure, h1, h2,
    Bool.false_eq_true, if_false, if_true]
  rfl

theorem handlerBody_error (raw : β → Except String γ) (model : Model γ) (event : Event β)
    (e : String) (h : handlerBody raw model event = .error e) :
    handler raw model event = .err e [] := by
  unfold handler
  rw [h]

/-! ## Concrete fixtures for witnesses and counterexamples

The opaque decoding libraries and the opaque CLIP scorer are instantiated
with small executable stand-ins: payloads and images are `Nat`, an even
payload decodes to itself, an odd one makes the library raise. -/

/-- Concrete decoder stand-in: even payloads decode, odd ones raise. -/
def raw0 : Nat → Except String Nat := fun p =>
  if p % 2 = 0 then .ok p else .error "cannot identify image file"

/-- Concrete scorer: uniform probability rows (argmax picks index 0). -/
def m0 : Model Nat := fun imgs prompts => some (imgs.map fun _ => prompts.map fun _ => (1:ℚ))

/-- Concrete scorer whose invocation always raises. -/
def m1fail : Model Nat := fun _ _ => none

/-- Concrete scorer peaking at index 3 of a 15-prompt row (the COLOR
vocabulary has `red` at index 3). -/
def mColor : Model Nat := fun imgs _ =>
  some (imgs.map fun _ => (List.range 15).map fun j => if j = 3 then (2:ℚ) else 1)

/-- Single-image scorer peaking at index 3 (modal path). -/
def m1c : Model1 Nat := fun _ prompts => (List.range prompts.length).map fun j =>
  if j = 3 then (2:ℚ) else 1

/-- Single-image scorer with uniform rows (modal path). -/
def m1unit : Model1 Nat := fun _ prompts => prompts.map fun _ => (1:ℚ)

def evC1 : Event Nat := ⟨some ⟨some [.dict (some 1) none]⟩⟩
def evC1w : Event Nat := ⟨some ⟨some [.dict (some 1) none, .dict (some 2) (some "b"),
  .dict (some 3) none]⟩⟩
def evC3 : Event Nat := ⟨some ⟨some [.dict (some 3) (some "a")]⟩⟩
def evC4w : Event Nat := ⟨some ⟨some [.dict (some 2) (some "a")]⟩⟩
def evC5 : Event Nat := ⟨some ⟨some [.dict (some 2) (some "x")]⟩⟩
def evC6w : Event Nat := ⟨some ⟨some [.dict (some 2) none, .dict (some 4) none]⟩⟩
def evC7 : Event Nat := ⟨some ⟨some [.dict (some 1) (some "p"), .dict (some 3) none]⟩⟩
def evC7w : Event Nat := ⟨some ⟨some [.dict (some 1) none, .dict (some 2) (some "b")]⟩⟩
def evC8 : Event Nat := ⟨none⟩
def evC10 : Event Nat := ⟨some ⟨some [.other "str"]⟩⟩

/-! ## Claim theorems -/

/-- Claim C1, counterexample: a batch of one item whose payload fails to
decode yields the batch-level error response with an *empty* results list
— zero entries instead of `N = 1` — so the response does not contain one
entry per input item for every failure pattern. -/
theorem C1_counterexample :
    (getImages evC1).length = 1 ∧
    handler raw0 m0 evC1 = .err "All images failed to decode" [] ∧
    (respResults (handler raw0 m0 evC1)).length = 0 := by
  refine ⟨rfl, by decide, ?_⟩
  decide

/-- Claim C1 (amended): for every batch request in which at least one item
decodes successfully, the handler's response is the normal result object,
its results list has exactly one entry per input item, and the entry at
position `i` carries the id of input item `i` (the caller-supplied id, or
the positional default `image_{i}`), regardless of which other items fail
to decode. -/
theorem C1_order_and_ids (raw : β → Except String γ) (model : Model γ) (event : Event β)
    (hd : ∀ it ∈ getImages event, it.isDict = true)
    (hne : getImages event ≠ [])
    (hsome : ∃ i, i < (getImages event).length ∧ okAt raw (getImages event) i = true) :
    ∃ R stats, handler raw model event = .ok R stats ∧
      R.length = (getImages event).length ∧
      R.map ResultEntry.entryId
        = (List.range (getImages event).length).map (idAt (getImages event)) := by
  refine ⟨_, _, handler_char raw model event hd hne hsome, length_mergeList _ _ _ _ _, ?_⟩
  unfold mergeList
  rw [List.map_map]
  apply List.map_congr_left
  intro i hi
  rw [List.mem_range] at hi
  by_cases h2 : okAt raw (getImages event) i = true
  · show ResultEntry.entryId (if okAt raw (getImages event) i = true then _ else _) = _
    rw [if_pos h2]
    have hrank : rankOf (okAt raw (getImages event)) i
        < (goodIdx raw (getImages event)).length := rankOf_lt hi h2
    have himg : rankOf (okAt raw (getImages event)) i
        < (sImgs raw (getImages event)).length := by
      rw [length_sImgs]
      exact hrank
    rw [compileResults_getD _ _ _ himg, compileEntry_entryId,
      getD_map_of_lt hrank "" 0]
    show idAt (getImages event) ((goodIdx raw (getImages event)).getD _ 0) = _
    congr 1
    exact filter_range_getD_rank hi h2 0
  · show ResultEntry.entryId (if okAt raw (getImages event) i = true then _ else _) = _
    rw [if_neg h2]
    rfl

/-- Witness for C1: a three-item batch (fail, succeed, fail) with a mix of
caller-supplied and defaulted ids. -/
theorem C1_order_and_ids_witness :
    (∀ it ∈ getImages evC1w, it.isDict = true) ∧
    getImages evC1w ≠ [] ∧
    (∃ i, i < (getImages evC1w).length ∧ okAt raw0 (getImages evC1w) i = true) ∧
    (∃ R stats, handler raw0 m0 evC1w = .ok R stats ∧
      R.length = (getImages evC1w).length ∧
      R.map ResultEntry.entryId
        = (List.range (getImages evC1w).length).map (idAt (getImages evC1w))) :=
  ⟨by decide, by decide, ⟨1, by decide, by decide⟩,
   C1_order_and_ids raw0 m0 evC1w (by decide) (by decide) ⟨1, by decide, by decide⟩⟩

/-- Claim C3, counterexample: when the only item of a batch fails to
decode, the handler returns the error response with no stats object at
all (and empty results) — not a stats object with `total = 1`,
`successful = 0`, `failed = 1`. -/
theorem C3_counterexample :
    (getImages evC3).length = 1 ∧
    handler raw0 m0 evC3 = .err "All images failed to decode" [] ∧
    respStats (handler raw0 m0 evC3) = none := by
  refine ⟨rfl, by decide, ?_⟩
  decide

/-- Claim C3 (amended): when every item of a non-empty batch fails to
decode, the handler short-circuits with the batch-level error response
`All images failed to decode` carrying empty results and *no* stats
object, and skips the classification stages (the response is the same
for every model). -/
theorem C3_all_failed (raw : β → Except String γ) (model model' : Model γ) (event : Event β)
    (hd : ∀ it ∈ getImages event, it.isDict = true)
    (hne : getImages event ≠ [])
    (hall : ∀ i < (getImages event).length, okAt raw (getImages event) i = false) :
    handler raw model event = .err "All images failed to decode" [] ∧
    respStats (handler raw model event) = none ∧
    handler raw model' event = handler raw model event := by
  have h := handler_all_fail raw model event hd hne hall
  have h' := handler_all_fail raw model' event hd hne hall
  exact ⟨h, by rw [h]; rfl, by rw [h, h']⟩

/-- Witness for C3: single-item batch whose payload fails to decode, with
two different models yielding the identical error response. -/
theorem C3_all_failed_witness :
    (∀ it ∈ getImages evC3, it.isDict = true) ∧
    getImages evC3 ≠ [] ∧
    (∀ i < (getImages evC3).length, okAt raw0 (getImages evC3) i = false) ∧
    (handler raw0 m0 evC3 = .err "All images failed to decode" [] ∧
      respStats (handler raw0 m0 evC3) = none ∧
      handler raw0 mColor evC3 = handler raw0 m0 evC3) :=
  ⟨by decide, by decide, by decide,
   C3_all_failed raw0 m0 mColor evC3 (by decide) (by decide) (by decide)⟩

/-- Claim C8: an empty (or missing) image list makes the handler return
the explicit error response `No images provided` with empty results
before any model invocation — the response is independent of the model. -/
theorem C8_empty_intake (raw : β → Except String γ) (model : Model γ) (event : Event β)
    (h : getImages event = []) :
    handler raw model event = .err "No images provided" [] ∧
    respResults (handler raw model event) = [] ∧
    ∀ model' : Model γ, handler raw model' event = handler raw model event := by
  have h1 := handler_empty raw model event h
  refine ⟨h1, by rw [h1]; rfl, fun model' => ?_⟩
  rw [h1, handler_empty raw model' event h]

/-- Witness for C8: the request is missing the `input` key entirely. -/
theorem C8_empty_intake_witness :
    getImages evC8 = [] ∧
    (handler raw0 m0 evC8 = .err "No images provided" [] ∧
      respResults (handler raw0 m0 evC8) = [] ∧
      ∀ model' : Model Nat, handler raw0 model' evC8 = handler raw0 m0 evC8) :=
  ⟨rfl, C8_empty_intake raw0 m0 evC8 rfl⟩

/-- Claim C10: the handler never propagates an exception — whenever the
body raises (is an `Except.error`), the handler returns an object carrying
that error string and an *empty* results list, never a partially filled
one. -/
theorem C10_catch_all (raw : β → Except String γ) (model : Model γ) (event : Event β)
    (e : String) (h : handlerBody raw model event = .error e) :
    handler raw model event = .err e [] ∧
    respResults (handler raw model event) = [] := by
  have h1 := handlerBody_error raw model event e h
  exact ⟨h1, by rw [h1]; rfl⟩

/-- Witness for C10: a batch whose single element is a string rather than
a dict — `item.get` raises `AttributeError` after intake, and the handler
catches it. -/
theorem C10_catch_all_witness :
    handlerBody raw0 m0 evC10
      = .error "AttributeError: str object has no attribute get" ∧
    (handler raw0 m0 evC10
        = .err "AttributeError: str object has no attribute get" [] ∧
      respResults (handler raw0 m0 evC10) = []) :=
  ⟨rfl,
   C10_catch_all raw0 m0 evC10 "AttributeError: str object has no attribute get" rfl⟩

/-- Claim C2, evaluation at the failing input: over the COLOR vocabulary,
with a successful model invocation whose argmax row peaks at index 3
(label `red`, winning prompt `red clothing`), the batch path labels the
image `clothing` — the template's last word, not a member of
`COLOR_LABELS` — while the modal path (`DF.extract_color`), which indexes
the vocabulary directly, returns `red`. -/
theorem C2_label_extraction_bug :
    extract_color_batch mColor [0] = [⟨"clothing", 2⟩] ∧
    COLOR_LABELS.contains "clothing" = false ∧
    (COLOR_LABELS.map colorPrompt).getD 3 "" = "red clothing" ∧
    COLOR_LABELS.getD 3 "" = "red" ∧
    DF.extract_color m1c 0 = ⟨"red", 2⟩ := by
  refine ⟨?_, ?_, ?_, ?_, ?_⟩ <;> decide

/-- Claim C4: for every successfully decoded image of a batch, each
conditional attribute key (`sleeveLength`, `neckline`, `length`) is
present in the entry's attributes dict (and, in lockstep, in its
confidence dict) if and only if the image's extracted category is a
member of that attribute's fixed valid-category set; otherwise the key is
absent (lookup yields `none`, it is not present with an empty value). -/
theorem C4_conditional_presence (raw : β → Except String γ) (model : Model γ)
    (event : Event β)
    (hd : ∀ it ∈ getImages event, it.isDict = true)
    (hne : getImages event ≠ [])
    (hsome : ∃ i, i < (getImages event).length ∧ okAt raw (getImages event) i = true) :
    ∀ i, i < (getImages event).length → okAt raw (getImages event) i = true →
    ∃ c, ((respResults (handler raw model event)).getD i dummyEntry).isSuccess = true ∧
      ((respResults (handler raw model event)).getD i dummyEntry).attrsOf.lookup "category"
        = some c ∧
      ((((respResults (handler raw model event)).getD i dummyEntry).attrsOf.lookup
          "sleeveLength").isSome = SLEEVE_CATEGORIES.contains c) ∧
      ((((respResults (handler raw model event)).getD i dummyEntry).confOf.lookup
          "sleeveLength").isSome = SLEEVE_CATEGORIES.contains c) ∧
      ((((respResults (handler raw model event)).getD i dummyEntry).attrsOf.lookup
          "neckline").isSome = NECKLINE_CATEGORIES.contains c) ∧
      ((((respResults (handler raw model event)).getD i dummyEntry).confOf.lookup
          "neckline").isSome = NECKLINE_CATEGORIES.contains c) ∧
      ((((respResults (handler raw model event)).getD i dummyEntry).attrsOf.lookup
          "length").isSome = LENGTH_CATEGORIES.contains c) ∧
      ((((respResults (handler raw model event)).getD i dummyEntry).confOf.lookup
          "length").isSome = LENGTH_CATEGORIES.contains c) := by
  intro i hi hok
  have hR : respResults (handler raw model event)
      = mergeList (getImages event).length (okAt raw (getImages event))
          (compileResults model (sImgs raw (getImages event))
            ((goodIdx raw (getImages event)).map fun j => idAt (getImages event) j))
          dummyEntry (failEntryAt (getImages event)) := by
    rw [handler_char raw model event hd hne hsome]
    rfl
  have hrank : rankOf (okAt raw (getImages event)) i
      < (goodIdx raw (getImages event)).length := rankOf_lt hi hok
  have himg : rankOf (okAt raw (getImages event)) i
      < (sImgs raw (getImages event)).length := by
    rw [length_sImgs]
    exact hrank
  have hcat : (categoriesOf model (sImgs raw (getImages event))).getD
      (rankOf (okAt raw (getImages event)) i) ""
      = ((extract_category_batch model (sImgs raw (getImages event))).getD
          (rankOf (okAt raw (getImages event)) i) dfltA).value := by
    unfold categoriesOf
    exact getD_map_of_lt (by rw [length_extract_category_batch]; exact himg) "" dfltA
  rw [hR, mergeList_getD hi, if_pos hok, compileResults_getD _ _ _ himg]
  refine ⟨((extract_category_batch model (sImgs raw (getImages event))).getD
      (rankOf (okAt raw (getImages event)) i) dfltA).value,
    compileEntry_isSuccess _ _ _ _ _ _ _ _,
    compileEntry_lookup_category _ _ _ _ _ _ _ _, ?_, ?_, ?_, ?_, ?_, ?_⟩
  · rw [compileEntry_attrs_sleeve]
    show ((sleeveResOf model _).getD _ none).isSome = _
    unfold sleeveResOf
    rw [eca_getD_isSome _ _ _ _ _ _ _ (length_categoriesOf model _) himg, hcat]
  · rw [compileEntry_conf_sleeve]
    show ((sleeveResOf model _).getD _ none).isSome = _
    unfold sleeveResOf
    rw [eca_getD_isSome _ _ _ _ _ _ _ (length_categoriesOf model _) himg, hcat]
  · rw [compileEntry_attrs_neckline]
    show ((necklineResOf model _).getD _ none).isSome = _
    unfold necklineResOf
    rw [eca_getD_isSome _ _ _ _ _ _ _ (length_categoriesOf model _) himg, hcat]
  · rw [compileEntry_conf_neckline]
    show ((necklineResOf model _).getD _ none).isSome = _
    unfold necklineResOf
    rw [eca_getD_isSome _ _ _ _ _ _ _ (length_categoriesOf model _) himg, hcat]
  · rw [compileEntry_attrs_length]
    show ((lengthResOf model _).getD _ none).isSome = _
    unfold lengthResOf
    rw [eca_getD_isSome _ _ _ _ _ _ _ (length_categoriesOf model _) himg, hcat]
  · rw [compileEntry_conf_length]
    show ((lengthResOf model _).getD _ none).isSome = _
    unfold lengthResOf
    rw [eca_getD_isSome _ _ _ _ _ _ _ (length_categoriesOf model _) himg, hcat]

/-- Witness for C4: a single decodable item, a uniform-probability model
(category resolves to `dress`). -/
theorem C4_conditional_presence_witness :
    (∀ it ∈ getImages evC4w, it.isDict = true) ∧
    getImages evC4w ≠ [] ∧
    (0 < (getImages evC4w).length ∧ okAt raw0 (getImages evC4w) 0 = true) ∧
    (∃ c, ((respResults (handler raw0 m0 evC4w)).getD 0 dummyEntry).isSuccess = true ∧
      ((respResults (handler raw0 m0 evC4w)).getD 0 dummyEntry).attrsOf.lookup "category"
        = some c ∧
      ((((respResults (handler raw0 m0 evC4w)).getD 0 dummyEntry).attrsOf.lookup
          "sleeveLength").isSome = SLEEVE_CATEGORIES.contains c) ∧
      ((((respResults (handler raw0 m0 evC4w)).getD 0 dummyEntry).confOf.lookup
          "sleeveLength").isSome = SLEEVE_CATEGORIES.contains c) ∧
      ((((respResults (handler raw0 m0 evC4w)).getD 0 dummyEntry).attrsOf.lookup
          "neckline").isSome = NECKLINE_CATEGORIES.contains c) ∧
      ((((respResults (handler raw0 m0 evC4w)).getD 0 dummyEntry).confOf.lookup
          "neckline").isSome = NECKLINE_CATEGORIES.contains c) ∧
      ((((respResults (handler raw0 m0 evC4w)).getD 0 dummyEntry).attrsOf.lookup
          "length").isSome = LENGTH_CATEGORIES.contains c) ∧
      ((((respResults (handler raw0 m0 evC4w)).getD 0 dummyEntry).confOf.lookup
          "length").isSome = LENGTH_CATEGORIES.contains c)) :=
  ⟨by decide, by decide, ⟨by decide, by decide⟩,
   C4_conditional_presence raw0 m0 evC4w (by decide) (by decide)
     ⟨0, by decide, by decide⟩ 0 (by decide) (by decide)⟩

/-- Claim C5, counterexample: in the batch handler, a successfully decoded
image's attributes dict contains *no* `gender` key at all (the batch path
never extracts gender), so gender is not an unconditional attribute of
the batch handler's AttributeSet. -/
theorem C5_counterexample :
    respError (handler raw0 m0 evC5) = none ∧
    ((respResults (handler raw0 m0 evC5)).getD 0 dummyEntry).isSuccess = true ∧
    ((respResults (handler raw0 m0 evC5)).getD 0 dummyEntry).attrsOf.lookup "gender"
      = none ∧
    respStats (handler raw0 m0 evC5) = some ⟨1, 1, 0⟩ := by
  refine ⟨?_, ?_, ?_, ?_⟩ <;> decide

/-- Claim C5 (amended): gender is an unconditional attribute only of the
single-image `analyze` path of `modal_deepfashion.py` — there, every
successfully preprocessed image's result carries `gender` (with a
confidence entry) alongside `category`, `color`, `pattern`, whatever the
category resolves to; the batch handler's attributes dicts never contain
a `gender` key. -/
theorem C5_gender_paths :
    (∀ (β₁ γ₁ : Type) (m1 : Model1 γ₁) (raw : β₁ → Except String γ₁) (d : β₁) (img : γ₁),
      raw d = .ok img →
      ∃ r, DF.analyze m1 raw d = .ok r ∧
        (r.attrs.lookup "gender").isSome = true ∧
        (r.confidence.lookup "gender").isSome = true ∧
        (r.attrs.lookup "category").isSome = true ∧
        (r.attrs.lookup "color").isSome = true ∧
        (r.attrs.lookup "pattern").isSome = true) ∧
    (∀ (γ₁ : Type) (model : Model γ₁) (images : List γ₁) (ids : List String) (k : Nat),
      k < images.length →
      ((compileResults model images ids).getD k dummyEntry).attrsOf.lookup "gender"
        = none) := by
  constructor
  · intro β₁ γ₁ m1 raw d img h
    refine ⟨⟨[("category", (DF.extract_category m1 img).value),
        ("color", (DF.extract_color m1 img).value),
        ("gender", (DF.extract_gender m1 img).value),
        ("pattern", (DF.extract_pattern m1 img).value)]
        ++ attrPairs "sleeveLength"
            (DF.extract_sleeve_length m1 img (DF.extract_category m1 img).value)
        ++ attrPairs "neckline"
            (DF.extract_neckline m1 img (DF.extract_category m1 img).value)
        ++ attrPairs "length"
            (DF.extract_length m1 img (DF.extract_category m1 img).value),
        [("category", (DF.extract_category m1 img).confidence),
        ("color", (DF.extract_color m1 img).confidence),
        ("gender", (DF.extract_gender m1 img).confidence),
        ("pattern", (DF.extract_pattern m1 img).confidence)]
        ++ confPairs "sleeveLength"
            (DF.extract_sleeve_length m1 img (DF.extract_category m1 img).value)
        ++ confPairs "neckline"
            (DF.extract_neckline m1 img (DF.extract_category m1 img).value)
        ++ confPairs "length"
            (DF.extract_length m1 img (DF.extract_category m1 img).value)⟩,
      ?_, rfl, rfl, rfl, rfl, rfl⟩
    unfold DF.analyze DF.preprocess_image
    rw [h]
    rfl
  · intro γ₁ model images ids k hk
    rw [compileResults_getD _ _ _ hk]
    exact compileEntry_lookup_gender _ _ _ _ _ _ _ _

/-- Witness for C5: the modal path at a concrete decodable payload, and
the batch compile stage at a concrete one-image batch. -/
theorem C5_gender_paths_witness :
    raw0 2 = .ok 2 ∧ (0:Nat) < ([2] : List Nat).length ∧
    (∃ r, DF.analyze m1unit raw0 2 = .ok r ∧
      (r.attrs.lookup "gender").isSome = true ∧
      (r.confidence.lookup "gender").isSome = true ∧
      (r.attrs.lookup "category").isSome = true ∧
      (r.attrs.lookup "color").isSome = true ∧
      (r.attrs.lookup "pattern").isSome = true) ∧
    ((compileResults m0 [(2:Nat)] ["x"]).getD 0 dummyEntry).attrsOf.lookup "gender"
      = none :=
  ⟨rfl, by decide,
   C5_gender_paths.1 Nat Nat m1unit raw0 2 2 rfl,
   C5_gender_paths.2 Nat m0 [2] ["x"] 0 (by decide)⟩

/-- Claim C6: when the model invocation inside `batch_classify` fails, the
classifier returns exactly one `unknown / 0.0` placeholder per input
image, uniformly; and the degradation is not surfaced — a decoded item is
still reported with `success = True` even under a model that always
fails. -/
theorem C6_uniform_fallback :
    (∀ (γ₁ : Type) (model : Model γ₁) (images : List γ₁) (prompts : List String),
      model images prompts = none →
      batch_classify model images prompts
        = images.map fun _ => ClassResult.mk "unknown" 0) ∧
    (∀ (β₁ γ₁ : Type) (raw : β₁ → Except String γ₁) (model : Model γ₁) (event : Event β₁),
      (∀ imgs prompts, model imgs prompts = none) →
      (∀ it ∈ getImages event, it.isDict = true) →
      getImages event ≠ [] →
      (∃ i, i < (getImages event).length ∧ okAt raw (getImages event) i = true) →
      ∀ i, i < (getImages event).length → okAt raw (getImages event) i = true →
        ((respResults (handler raw model event)).getD i dummyEntry).isSuccess = true) := by
  constructor
  · intro γ₁ model images prompts h
    unfold batch_classify
    rw [h]
  · intro β₁ γ₁ raw model event _hm hd hne hsome i hi hok
    have hR : respResults (handler raw model event)
        = mergeList (getImages event).length (okAt raw (getImages event))
            (compileResults model (sImgs raw (getImages event))
              ((goodIdx raw (getImages event)).map fun j => idAt (getImages event) j))
            dummyEntry (failEntryAt (getImages event)) := by
      rw [handler_char raw model event hd hne hsome]
      rfl
    rw [hR, mergeList_getD hi, if_pos hok,
      compileResults_getD _ _ _ (by rw [length_sImgs]; exact rankOf_lt hi hok)]
    exact compileEntry_isSuccess _ _ _ _ _ _ _ _

/-- Witness for C6: the always-failing model over a two-item batch of
decodable payloads; both the uniform placeholder list and the per-item
`success = True` flag. -/
theorem C6_uniform_fallback_witness :
    m1fail [(0:Nat), 1] ["a"] = none ∧
    batch_classify m1fail [(0:Nat), 1] ["a"]
      = [ClassResult.mk "unknown" 0, ClassResult.mk "unknown" 0] ∧
    ((respResults (handler raw0 m1fail evC6w)).getD 0 dummyEntry).isSuccess = true :=
  ⟨rfl,
   C6_uniform_fallback.1 Nat m1fail [0, 1] ["a"] rfl,
   C6_uniform_fallback.2 Nat Nat raw0 m1fail evC6w (fun _ _ => rfl) (by decide) (by decide)
     ⟨0, by decide, by decide⟩ 0 (by decide) (by decide)⟩

/-- Claim C7, counterexample: a batch in which *every* payload is
undecodable is turned into a batch-level error with empty results —
no per-item failed entries are emitted for those payloads. -/
theorem C7_counterexample :
    handler raw0 m0 evC7 = .err "All images failed to decode" [] ∧
    respResults (handler raw0 m0 evC7) = [] ∧
    (getImages evC7).length = 2 := by
  refine ⟨by decide, ?_, rfl⟩
  decide

/-- Claim C7 (amended): the decoder never raises — for any payload it
returns the decoded image or signals failure with `None` (the cause is
logged, not carried); and whenever at least one item of the batch
decodes, the orchestrator turns each decode failure into a per-item
failed entry `{id, success: False, error: 'Failed to decode image'}`
rather than a batch-level failure. -/
theorem C7_decode_isolation (raw : β → Except String γ) (model : Model γ) (event : Event β)
    (hd : ∀ it ∈ getImages event, it.isDict = true)
    (hne : getImages event ≠ [])
    (hsome : ∃ i, i < (getImages event).length ∧ okAt raw (getImages event) i = true) :
    (∀ d : β, (∀ img, raw d = .ok img → decode_image raw (some d) = some img) ∧
       ∀ e, raw d = .error e → decode_image raw (some d) = none) ∧
    (∀ i, i < (getImages event).length → okAt raw (getImages event) i = false →
      (respResults (handler raw model event)).getD i dummyEntry
        = ResultEntry.failure (idAt (getImages event) i) "Failed to decode image") := by
  constructor
  · intro d
    constructor
    · intro img h
      simp [decode_image, h]
    · intro e h
      simp [decode_image, h]
  · intro i hi hbad
    have hR : respResults (handler raw model event)
        = mergeList (getImages event).length (okAt raw (getImages event))
            (compileResults model (sImgs raw (getImages event))
              ((goodIdx raw (getImages event)).map fun j => idAt (getImages event) j))
            dummyEntry (failEntryAt (getImages event)) := by
      rw [handler_char raw model event hd hne hsome]
      rfl
    rw [hR, mergeList_getD hi,
      if_neg (by rw [hbad]; exact Bool.false_ne_true)]
    rfl

/-- Witness for C7: a two-item batch whose first payload is undecodable
and whose second decodes; the failed item becomes the per-item entry with
the defaulted id `image_0`. -/
theorem C7_decode_isolation_witness :
    (∀ it ∈ getImages evC7w, it.isDict = true) ∧
    getImages evC7w ≠ [] ∧
    (1 < (getImages evC7w).length ∧ okAt raw0 (getImages evC7w) 1 = true) ∧
    ((∀ d : Nat, (∀ img, raw0 d = .ok img → decode_image raw0 (some d) = some img) ∧
       ∀ e, raw0 d = .error e → decode_image raw0 (some d) = none) ∧
    (∀ i, i < (getImages evC7w).length → okAt raw0 (getImages evC7w) i = false →
      (respResults (handler raw0 m0 evC7w)).getD i dummyEntry
        = ResultEntry.failure (idAt (getImages evC7w) i) "Failed to decode image")) :=
  ⟨by decide, by decide, ⟨by decide, by decide⟩,
   C7_decode_isolation raw0 m0 evC7w (by decide) (by decide) ⟨1, by decide, by decide⟩⟩

/-- Claim C9: a conditional extractor produces a full-length list; when no
category of the batch is in the valid set it is `None` everywhere without
invoking the classifier (the result is model-independent); otherwise it
classifies exactly the valid subset's images and scatters the `k`-th
subset result back to the `k`-th valid original index, `None` elsewhere. -/
theorem C9_conditional_gather_scatter (model : Model γ) (images : List γ)
    (cats : List String) (nm : String) (labels valid : List String)
    (tmpl : String → String) (hlen : cats.length = images.length) :
    (extract_conditional_attribute model images cats nm labels valid tmpl).length
      = images.length ∧
    ((∀ j < cats.length, valid.contains (cats.getD j "") = false) →
      extract_conditional_attribute model images cats nm labels valid tmpl
        = List.replicate images.length none ∧
      ∀ model' : Model γ,
        extract_conditional_attribute model' images cats nm labels valid tmpl
          = extract_conditional_attribute model images cats nm labels valid tmpl) ∧
    (∀ j, j < images.length → valid.contains (cats.getD j "") = false →
      (extract_conditional_attribute model images cats nm labels valid tmpl).getD j none
        = none) ∧
    (∀ k, k < (validIdx cats valid).length →
      (extract_conditional_attribute model images cats nm labels valid tmpl).getD
          ((validIdx cats valid).getD k 0) none
        = some ⟨((batch_classify model (subsetImages images cats valid)
              (labels.map tmpl)).getD k dfltC).label,
            ((batch_classify model (subsetImages images cats valid)
              (labels.map tmpl)).getD k dfltC).confidence⟩) := by
  refine ⟨length_extract_conditional_attribute _ _ _ _ _ _ _, ?_, ?_, ?_⟩
  · intro h
    refine ⟨eca_of_no_valid _ _ _ _ _ _ _ h, fun model' => ?_⟩
    rw [eca_of_no_valid model' _ _ _ _ _ _ h, eca_of_no_valid model _ _ _ _ _ _ h]
  · intro j hj hc
    exact eca_getD_of_invalid _ _ _ _ _ _ _ hj hc
  · intro k hk
    exact eca_getD_rank _ _ _ _ _ _ _ hlen hk

/-- Witness for C9: two images with categories `dress` (valid for sleeves)
and `shoes` (invalid), against the sleeve vocabulary. -/
theorem C9_conditional_gather_scatter_witness :
    (["dress", "shoes"] : List String).length = ([(10:Nat), 20] : List Nat).length ∧
    ((extract_conditional_attribute mColor [(10:Nat), 20] ["dress", "shoes"]
        "sleeveLength" SLEEVE_LENGTH_LABELS SLEEVE_CATEGORIES
        (fun label => label ++ " sleeve clothing")).length = ([(10:Nat), 20]).length ∧
    ((∀ j < (["dress", "shoes"] : List String).length,
        SLEEVE_CATEGORIES.contains ((["dress", "shoes"] : List String).getD j "") = false) →
      extract_conditional_attribute mColor [(10:Nat), 20] ["dress", "shoes"]
          "sleeveLength" SLEEVE_LENGTH_LABELS SLEEVE_CATEGORIES
          (fun label => label ++ " sleeve clothing")
        = List.replicate ([(10:Nat), 20]).length none ∧
      ∀ model' : Model Nat,
        extract_conditional_attribute model' [(10:Nat), 20] ["dress", "shoes"]
            "sleeveLength" SLEEVE_LENGTH_LABELS SLEEVE_CATEGORIES
            (fun label => label ++ " sleeve clothing")
          = extract_conditional_attribute mColor [(10:Nat), 20] ["dress", "shoes"]
              "sleeveLength" SLEEVE_LENGTH_LABELS SLEEVE_CATEGORIES
              (fun label => label ++ " sleeve clothing")) ∧
    (∀ j, j < ([(10:Nat), 20]).length →
      SLEEVE_CATEGORIES.contains ((["dress", "shoes"] : List String).getD j "") = false →
      (extract_conditional_attribute mColor [(10:Nat), 20] ["dress", "shoes"]
          "sleeveLength" SLEEVE_LENGTH_LABELS SLEEVE_CATEGORIES
          (fun label => label ++ " sleeve clothing")).getD j none = none) ∧
    (∀ k, k < (validIdx ["dress", "shoes"] SLEEVE_CATEGORIES).length →
      (extract_conditional_attribute mColor [(10:Nat), 20] ["dress", "shoes"]
          "sleeveLength" SLEEVE_LENGTH_LABELS SLEEVE_CATEGORIES
          (fun label => label ++ " sleeve clothing")).getD
          ((validIdx ["dress", "shoes"] SLEEVE_CATEGORIES).getD k 0) none
        = some ⟨((batch_classify mColor
              (subsetImages [(10:Nat), 20] ["dress", "shoes"] SLEEVE_CATEGORIES)
              (SLEEVE_LENGTH_LABELS.map (fun label => label ++ " sleeve clothing"))).getD
                k dfltC).label,
            ((batch_classify mColor
              (subsetImages [(10:Nat), 20] ["dress", "shoes"] SLEEVE_CATEGORIES)
              (SLEEVE_LENGTH_LABELS.map (fun label => label ++ " sleeve clothing"))).getD
                k dfltC).confidence⟩)) :=
  ⟨rfl, C9_conditional_gather_scatter mColor [10, 20] ["dress", "shoes"] "sleeveLength"
    SLEEVE_LENGTH_LABELS SLEEVE_CATEGORIES (fun label => label ++ " sleeve clothing") rfl⟩

end Omnia
